import Mathlib

/-!
Verification of the fitness-tracker calculator in `homework.py`.

The program is embedded shallowly: Python floats become exact rationals
`ℚ`; Python's division, which raises `ZeroDivisionError` on a zero
divisor (it never produces `inf`/`nan`), becomes `pydiv`, returning
`Option ℚ` with `none` standing for the raised exception.  Class-level
constants become namespaced definitions; dynamic dispatch over the three
training subclasses becomes the sum type `TrainingObj`.  The dispatcher
`read_package` is parametric in the element type of the data list, since
the Python constructors store values of any type without inspecting
them; `ReadResult.nonePy` stands for the Python function returning
`None`, and `ReadResult.typeError` for the `TypeError` raised when a
constructor is called with the wrong number of positional arguments.
-/

/-- Python float division: raises `ZeroDivisionError` (modelled as
`none`) when the divisor is zero, otherwise exact division. -/
def pydiv (a b : ℚ) : Option ℚ :=
  if b = 0 then none else some (a / b)

/-- `InfoMessage` from `homework.py`: the computed report. -/
structure InfoMessage where
  training_type : String
  duration : ℚ
  distance : ℚ
  speed : ℚ
  calories : ℚ
  deriving DecidableEq, Repr

/-- Base class `Training`: fields `action`, `duration`, `weight`.
Parametric in the stored value type, as Python stores any value. -/
structure Training (α : Type) where
  action : α
  duration : α
  weight : α
  deriving DecidableEq, Repr

/-- `SportsWalking` adds a `height` field. -/
structure SportsWalking (α : Type) extends Training α where
  height : α
  deriving DecidableEq, Repr

/-- `Swimming` adds `length_pool` and `count_pool` fields. -/
structure Swimming (α : Type) extends Training α where
  length_pool : α
  count_pool : α
  deriving DecidableEq, Repr

def Training.LEN_STEP : ℚ := 0.65

def Training.M_IN_KM : ℚ := 1000

def Training.MIN_IN_HOUR : ℚ := 60

def Training.CALORIES_MEAN_SPEED_MULTIPLIER : ℚ := 18

def Training.CALORIES_MEAN_SPEED_SHIFT : ℚ := 1.79

/-- `Training.training_time_in_minutes`: `duration * MIN_IN_HOUR`. -/
def Training.training_time_in_minutes (t : Training ℚ) : ℚ :=
  t.duration * Training.MIN_IN_HOUR

/-- `Training.get_distance`: `action * LEN_STEP / M_IN_KM`. -/
def Training.get_distance (t : Training ℚ) : ℚ :=
  t.action * Training.LEN_STEP / Training.M_IN_KM

/-- `Training.get_mean_speed`: `get_distance() / duration`
(raises `ZeroDivisionError` when `duration = 0`). -/
def Training.get_mean_speed (t : Training ℚ) : Option ℚ :=
  pydiv t.get_distance t.duration

def Running.CALORIES_MEAN_SPEED_MULTIPLIER : ℚ := 18

def Running.CALORIES_MEAN_SPEED_SHIFT : ℚ := 1.79

/-- `Running.get_spent_calories`:
`(MULT * mean_speed + SHIFT) * weight / M_IN_KM * minutes`. -/
def Running.get_spent_calories (t : Training ℚ) : Option ℚ :=
  (Training.get_mean_speed t).map fun speed =>
    (Running.CALORIES_MEAN_SPEED_MULTIPLIER * speed
        + Running.CALORIES_MEAN_SPEED_SHIFT)
      * t.weight / Training.M_IN_KM * t.training_time_in_minutes

def SportsWalking.CALORIES_MEAN_SPEED_MULTIPLIER : ℚ := 0.035

def SportsWalking.CALORIES_MEAN_SPEED_SHIFT : ℚ := 0.029

def SportsWalking.KMH_TO_MPS : ℚ := 0.278

def SportsWalking.CM_TO_M : ℚ := 100

/-- `SportsWalking.height_in_m`: `height / CM_TO_M`. -/
def SportsWalking.height_in_m (s : SportsWalking ℚ) : ℚ :=
  s.height / SportsWalking.CM_TO_M

/-- `SportsWalking.get_spent_calories`:
`(MULT * weight + (mean_speed * KMH_TO_MPS)^2 / height_in_m * SHIFT * weight) * minutes`.
The inner division raises when `height_in_m = 0`. -/
def SportsWalking.get_spent_calories (s : SportsWalking ℚ) : Option ℚ :=
  (Training.get_mean_speed s.toTraining).bind fun speed =>
    (pydiv ((speed * SportsWalking.KMH_TO_MPS) ^ 2) s.height_in_m).map fun sq =>
      (SportsWalking.CALORIES_MEAN_SPEED_MULTIPLIER * s.weight
          + sq * SportsWalking.CALORIES_MEAN_SPEED_SHIFT * s.weight)
        * s.toTraining.training_time_in_minutes

def Swimming.CALORIES_MEAN_SPEED_MULTIPLIER : ℚ := 1.1

def Swimming.CALORIES_MEAN_SPEED_SHIFT : ℚ := 2

def Swimming.LEN_STEP : ℚ := 1.38

/-- `Swimming` inherits `Training.get_distance` but `self.LEN_STEP`
resolves to the overridden `Swimming.LEN_STEP = 1.38`. -/
def Swimming.get_distance (s : Swimming ℚ) : ℚ :=
  s.action * Swimming.LEN_STEP / Training.M_IN_KM

/-- `Swimming.get_mean_speed`:
`length_pool * count_pool / M_IN_KM / duration`. -/
def Swimming.get_mean_speed (s : Swimming ℚ) : Option ℚ :=
  pydiv (s.length_pool * s.count_pool / Training.M_IN_KM) s.duration

/-- `Swimming.get_spent_calories`:
`(mean_speed + MULT) * SHIFT * weight * duration`. -/
def Swimming.get_spent_calories (s : Swimming ℚ) : Option ℚ :=
  s.get_mean_speed.map fun speed =>
    (speed + Swimming.CALORIES_MEAN_SPEED_MULTIPLIER)
      * Swimming.CALORIES_MEAN_SPEED_SHIFT * s.weight * s.duration

/-- A constructed training object of one of the three subclasses. -/
inductive TrainingObj (α : Type) where
  | run : Training α → TrainingObj α
  | wlk : SportsWalking α → TrainingObj α
  | swm : Swimming α → TrainingObj α
  deriving DecidableEq, Repr

/-- `self.__class__.__name__` of the object. -/
def TrainingObj.className : TrainingObj α → String
  | .run _ => "Running"
  | .wlk _ => "SportsWalking"
  | .swm _ => "Swimming"

def TrainingObj.action : TrainingObj α → α
  | .run t => t.action
  | .wlk s => s.action
  | .swm s => s.action

def TrainingObj.duration : TrainingObj α → α
  | .run t => t.duration
  | .wlk s => s.duration
  | .swm s => s.duration

/-- Dynamically dispatched `get_distance`. -/
def TrainingObj.get_distance : TrainingObj ℚ → ℚ
  | .run t => t.get_distance
  | .wlk s => s.toTraining.get_distance
  | .swm s => s.get_distance

/-- Dynamically dispatched `get_mean_speed`. -/
def TrainingObj.get_mean_speed : TrainingObj ℚ → Option ℚ
  | .run t => t.get_mean_speed
  | .wlk s => s.toTraining.get_mean_speed
  | .swm s => s.get_mean_speed

/-- Dynamically dispatched `get_spent_calories`. -/
def TrainingObj.get_spent_calories : TrainingObj ℚ → Option ℚ
  | .run t => Running.get_spent_calories t
  | .wlk s => s.get_spent_calories
  | .swm s => s.get_spent_calories

/-- `Training.show_training_info`: builds the `InfoMessage` from the
class name and the dispatched computations; any `ZeroDivisionError`
raised inside propagates (`none`). -/
def show_training_info (o : TrainingObj ℚ) : Option InfoMessage :=
  o.get_mean_speed.bind fun speed =>
    o.get_spent_calories.map fun calories =>
      ⟨o.className, o.duration, o.get_distance, speed, calories⟩

/-- Outcome of `read_package`. -/
inductive ReadResult (α : Type) where
  | ok : TrainingObj α → ReadResult α
  | typeError : ReadResult α
  | nonePy : ReadResult α
  deriving DecidableEq, Repr

/-- `read_package`: looks the code up in the dispatch dict and calls the
constructor with the unpacked data list.  A known code with the wrong
number of values raises `TypeError`; an unknown code returns `None`. -/
def read_package {α : Type} (workout_type : String) (data : List α) :
    ReadResult α :=
  if workout_type = "SWM" then
    match data with
    | [a, d, w, l, c] => .ok (.swm ⟨⟨a, d, w⟩, l, c⟩)
    | _ => .typeError
  else if workout_type = "RUN" then
    match data with
    | [a, d, w] => .ok (.run ⟨a, d, w⟩)
    | _ => .typeError
  else if workout_type = "WLK" then
    match data with
    | [a, d, w, h] => .ok (.wlk ⟨⟨a, d, w⟩, h⟩)
    | _ => .typeError
  else .nonePy

/-- Round a rational to the nearest integer, ties to even: the rounding
Python's fixed-point formatting applies to the displayed digits. -/
def roundHalfEven (q : ℚ) : ℤ :=
  let f := ⌊q⌋
  let r := q - f
  if r < 1 / 2 then f
  else if 1 / 2 < r then f + 1
  else if f % 2 = 0 then f else f + 1

/-- Three decimal digits (most significant first) of `k < 1000`,
zero-padded. -/
def digit3 (k : ℕ) : String :=
  String.mk [Nat.digitChar (k / 100 % 10), Nat.digitChar (k / 10 % 10),
    Nat.digitChar (k % 10)]

/-- Python `f-string` fixed-point formatting with three decimals,
`x:.3f`: sign, integer part, a dot, then exactly three digits. -/
def fmt3 (q : ℚ) : String :=
  let n := roundHalfEven (q * 1000)
  let sign := if n < 0 then "-" else ""
  let m := n.natAbs
  sign ++ Nat.repr (m / 1000) ++ "." ++ digit3 (m % 1000)

/-- `InfoMessage.get_message`: the formatted report line. -/
def InfoMessage.get_message (m : InfoMessage) : String :=
  "Тип тренировки: " ++ m.training_type
    ++ "; Длительность: " ++ fmt3 m.duration
    ++ " ч.; Дистанция: " ++ fmt3 m.distance
    ++ " км; Ср. скорость: " ++ fmt3 m.speed
    ++ " км/ч; Потрачено ккал: " ++ fmt3 m.calories ++ "."

/-- Modelled from the spec: the per-kind step length, `0.65` for
Running/Walking and `1.38` for Swimming, used to compare the code's
distance computation against the spec's words. -/
def specStepLength : TrainingObj ℚ → ℚ
  | .swm _ => 1.38
  | _ => 0.65

/-- The number of positional constructor arguments of each known kind:
3 for Running, 4 for Walking, 5 for Swimming. -/
def expectedArity (workout_type : String) : ℕ :=
  if workout_type = "SWM" then 5
  else if workout_type = "RUN" then 3
  else 4

/-- A dynamically typed input value: Python data lists may mix numbers
with non-numeric values such as strings. -/
inductive Value where
  | num : ℚ → Value
  | str : String → Value
  deriving DecidableEq, Repr

theorem pydiv_of_ne (a b : ℚ) (h : b ≠ 0) : pydiv a b = some (a / b) := by
  simp [pydiv, h]

/-- C1: the claim says `read_package` fails with an
`InvalidActivityCode` error on a code outside SWM/RUN/WLK; the code
instead silently returns `None` (modelled `ReadResult.nonePy`), shown
here at the concrete unknown code "XYZ". -/
theorem read_package_unknown_code_silently_returns_none :
    read_package "XYZ" ([1, 2, 3] : List ℚ) = ReadResult.nonePy := rfl

/-- C2 counterexample: on input RUN [15000, 1, 75] the computed calories
are exactly 797.805, not approximately 790.886 as the claim states: the
difference exceeds 6. -/
theorem running_example_calories_mismatch :
    Running.get_spent_calories ⟨15000, 1, 75⟩ = some (797805 / 1000) ∧
    6 < |(797805 / 1000 : ℚ) - 790886 / 1000| := by
  constructor
  · norm_num [Running.get_spent_calories, Training.get_mean_speed,
      Training.get_distance, Training.training_time_in_minutes, pydiv,
      Training.LEN_STEP, Training.M_IN_KM, Training.MIN_IN_HOUR,
      Running.CALORIES_MEAN_SPEED_MULTIPLIER,
      Running.CALORIES_MEAN_SPEED_SHIFT]
  · rw [abs_of_pos] <;> norm_num

/-- C2 (amended): for every valid Running record the calories equal
`(18 * mean_speed + 1.79) * weight / 1000 * (duration * 60)` with
`mean_speed = action * 0.65 / 1000 / duration`; on RUN [15000, 1, 75]
the distance is 9.750 km, the mean speed 9.750 km/h and the calories
797.805 (the spec's example value 790.886 is wrong). -/
theorem running_calories :
    (∀ t : Training ℚ, 0 ≤ t.action → 0 < t.duration → 0 < t.weight →
      Running.get_spent_calories t =
        some ((18 * (t.action * 0.65 / 1000 / t.duration) + 1.79)
          * t.weight / 1000 * (t.duration * 60))) ∧
    Training.get_distance ⟨15000, 1, 75⟩ = 9.75 ∧
    Training.get_mean_speed ⟨15000, 1, 75⟩ = some 9.75 ∧
    Running.get_spent_calories ⟨15000, 1, 75⟩ = some 797.805 := by
  refine ⟨fun t _ hd _ => ?_, by norm_num [Training.get_distance,
      Training.LEN_STEP, Training.M_IN_KM], ?_, ?_⟩
  · simp only [Running.get_spent_calories, Training.get_mean_speed,
      pydiv_of_ne _ _ hd.ne', Option.map_some, Option.some.injEq,
      Training.get_distance, Training.training_time_in_minutes,
      Training.LEN_STEP, Training.M_IN_KM, Training.MIN_IN_HOUR,
      Running.CALORIES_MEAN_SPEED_MULTIPLIER,
      Running.CALORIES_MEAN_SPEED_SHIFT]
    norm_num
  · norm_num [Training.get_mean_speed, Training.get_distance, pydiv,
      Training.LEN_STEP, Training.M_IN_KM]
  · norm_num [Running.get_spent_calories, Training.get_mean_speed,
      Training.get_distance, Training.training_time_in_minutes, pydiv,
      Training.LEN_STEP, Training.M_IN_KM, Training.MIN_IN_HOUR,
      Running.CALORIES_MEAN_SPEED_MULTIPLIER,
      Running.CALORIES_MEAN_SPEED_SHIFT]

/-- C2 witness: the amended formula instantiated at RUN [15000, 1, 75]. -/
theorem running_calories_witness :
    Running.get_spent_calories ⟨15000, 1, 75⟩ =
      some ((18 * ((15000 : ℚ) * 0.65 / 1000 / 1) + 1.79)
        * 75 / 1000 * (1 * 60)) :=
  running_calories.1 ⟨15000, 1, 75⟩ (by norm_num) (by norm_num) (by norm_num)

/-- C3: for every record with positive duration, the distance is
`action * step / 1000` with step 0.65 for Running and Walking and 1.38
for Swimming. -/
theorem distance_step_length (o : TrainingObj ℚ) (hd : 0 < o.duration) :
    o.get_distance = o.action * specStepLength o / 1000 := by
  cases o <;>
    simp [TrainingObj.get_distance, TrainingObj.action, specStepLength,
      Training.get_distance, Swimming.get_distance, Training.LEN_STEP,
      Swimming.LEN_STEP, Training.M_IN_KM]

/-- C3 witness: distance of the Swimming example record. -/
theorem distance_step_length_witness :
    TrainingObj.get_distance (.swm ⟨⟨720, 1, 80⟩, 25, 40⟩) =
      TrainingObj.action (.swm ⟨⟨720, 1, 80⟩, 25, 40⟩)
        * specStepLength (.swm ⟨⟨720, 1, 80⟩, 25, 40⟩) / 1000 :=
  distance_step_length (.swm ⟨⟨720, 1, 80⟩, 25, 40⟩) (by norm_num
    [TrainingObj.duration])

/-- C4: for every Swimming record with positive duration the mean speed
is `length_pool * count_pool / 1000 / duration`, and it never depends on
the `action` field (hence not on the step length either). -/
theorem swimming_mean_speed :
    (∀ s : Swimming ℚ, 0 < s.duration →
      s.get_mean_speed =
        some (s.length_pool * s.count_pool / 1000 / s.duration)) ∧
    (∀ (s : Swimming ℚ) (a : ℚ),
      Swimming.get_mean_speed ⟨⟨a, s.duration, s.weight⟩,
        s.length_pool, s.count_pool⟩ = s.get_mean_speed) := by
  constructor
  · intro s hd
    simp [Swimming.get_mean_speed, pydiv_of_ne _ _ hd.ne',
      Training.M_IN_KM]
  · intro s a
    simp [Swimming.get_mean_speed]

/-- C4 witness: mean speed of the Swimming example record. -/
theorem swimming_mean_speed_witness :
    Swimming.get_mean_speed ⟨⟨720, 1, 80⟩, 25, 40⟩ =
      some ((25 : ℚ) * 40 / 1000 / 1) :=
  swimming_mean_speed.1 ⟨⟨720, 1, 80⟩, 25, 40⟩ (by norm_num)

/-- C5: for every Swimming record with positive duration the calories
are `(mean_speed + 1.1) * 2 * weight * duration`; on SWM
[720, 1, 80, 25, 40] the mean speed is 1.000 km/h and the calories are
336.000. -/
theorem swimming_calories :
    (∀ s : Swimming ℚ, 0 < s.duration →
      s.get_spent_calories =
        some ((s.length_pool * s.count_pool / 1000 / s.duration + 1.1)
          * 2 * s.weight * s.duration)) ∧
    Swimming.get_mean_speed ⟨⟨720, 1, 80⟩, 25, 40⟩ = some 1 ∧
    Swimming.get_spent_calories ⟨⟨720, 1, 80⟩, 25, 40⟩ = some 336 := by
  refine ⟨fun s hd => ?_, ?_, ?_⟩
  · simp [Swimming.get_spent_calories, Swimming.get_mean_speed,
      pydiv_of_ne _ _ hd.ne', Training.M_IN_KM,
      Swimming.CALORIES_MEAN_SPEED_MULTIPLIER,
      Swimming.CALORIES_MEAN_SPEED_SHIFT]
  · norm_num [Swimming.get_mean_speed, pydiv, Training.M_IN_KM]
  · norm_num [Swimming.get_spent_calories, Swimming.get_mean_speed,
      pydiv, Training.M_IN_KM, Swimming.CALORIES_MEAN_SPEED_MULTIPLIER,
      Swimming.CALORIES_MEAN_SPEED_SHIFT]

/-- C5 witness: the calories formula instantiated at the Swimming
example record. -/
theorem swimming_calories_witness :
    Swimming.get_spent_calories ⟨⟨720, 1, 80⟩, 25, 40⟩ =
      some (((25 : ℚ) * 40 / 1000 / 1 + 1.1) * 2 * 80 * 1) :=
  swimming_calories.1 ⟨⟨720, 1, 80⟩, 25, 40⟩ (by norm_num)

/-- C6: for every valid Walking record the calories equal
`(0.035 * weight + ((mean_speed * 0.278)^2 / (height / 100)) * 0.029 * weight)
  * (duration * 60)` with `mean_speed = action * 0.65 / 1000 / duration`. -/
theorem walking_calories (s : SportsWalking ℚ) (hd : 0 < s.duration)
    (hw : 0 < s.weight) (hh : 0 < s.height) :
    s.get_spent_calories = some
      ((0.035 * s.weight
        + ((s.action * 0.65 / 1000 / s.duration * 0.278) ^ 2
            / (s.height / 100)) * 0.029 * s.weight)
        * (s.duration * 60)) := by
  have hm : (s.height / 100 : ℚ) ≠ 0 := div_ne_zero hh.ne' (by norm_num)
  simp only [SportsWalking.get_spent_calories, Training.get_mean_speed,
    pydiv_of_ne _ _ hd.ne', pydiv_of_ne _ _ hm, Option.some_bind,
    Option.map_some', Option.some.injEq, Training.get_distance,
    Training.training_time_in_minutes, SportsWalking.height_in_m,
    Training.LEN_STEP, Training.M_IN_KM, Training.MIN_IN_HOUR,
    SportsWalking.CALORIES_MEAN_SPEED_MULTIPLIER,
    SportsWalking.CALORIES_MEAN_SPEED_SHIFT, SportsWalking.KMH_TO_MPS,
    SportsWalking.CM_TO_M]

/-- C6 witness: the walking formula instantiated at WLK
[9000, 1, 75, 180]. -/
theorem walking_calories_witness :
    SportsWalking.get_spent_calories ⟨⟨9000, 1, 75⟩, 180⟩ = some
      ((0.035 * 75
        + (((9000 : ℚ) * 0.65 / 1000 / 1 * 0.278) ^ 2
            / (180 / 100)) * 0.029 * 75)
        * (1 * 60)) :=
  walking_calories ⟨⟨9000, 1, 75⟩, 180⟩ (by norm_num) (by norm_num)
    (by norm_num)

/-- C7: for every record of any kind with zero duration, computing the
mean speed or the calories raises `ZeroDivisionError` (modelled `none`);
no Infinity or NaN value is ever produced. -/
theorem zero_duration_division_error (o : TrainingObj ℚ)
    (h : o.duration = 0) :
    o.get_mean_speed = none ∧ o.get_spent_calories = none := by
  cases o with
  | run t =>
    simp_all [TrainingObj.get_mean_speed, TrainingObj.get_spent_calories,
      TrainingObj.duration, Training.get_mean_speed,
      Running.get_spent_calories, pydiv]
  | wlk s =>
    simp_all [TrainingObj.get_mean_speed, TrainingObj.get_spent_calories,
      TrainingObj.duration, Training.get_mean_speed,
      SportsWalking.get_spent_calories, pydiv]
  | swm s =>
    simp_all [TrainingObj.get_mean_speed, TrainingObj.get_spent_calories,
      TrainingObj.duration, Swimming.get_mean_speed,
      Swimming.get_spent_calories, pydiv]

/-- C7 witness: a Running record with zero duration. -/
theorem zero_duration_division_error_witness :
    TrainingObj.get_mean_speed (.run ⟨100, 0, 70⟩) = none ∧
    TrainingObj.get_spent_calories (.run ⟨100, 0, 70⟩) = none :=
  zero_duration_division_error (.run ⟨100, 0, 70⟩) rfl

/-- C8 counterexample: a known code with the right arity but a
non-numeric value does not fail at dispatch; `read_package` constructs
and returns a Running record whose weight is the string "x". -/
theorem read_package_constructs_with_non_numeric :
    read_package "RUN" [Value.num 15000, Value.num 1, Value.str "x"]
      = ReadResult.ok (.run ⟨Value.num 15000, Value.num 1,
          Value.str "x"⟩) := rfl

/-- C8 (amended): for every known workout code, a data list of the wrong
length makes `read_package` raise `TypeError` immediately and no record
is constructed, while a list of the right length always yields a
constructed record, whatever the values are (they are not inspected). -/
theorem read_package_arity_check {α : Type} (workout_type : String)
    (data : List α)
    (hwt : workout_type ∈ (["SWM", "RUN", "WLK"] : List String)) :
    (data.length ≠ expectedArity workout_type →
      read_package workout_type data = ReadResult.typeError) ∧
    (data.length = expectedArity workout_type →
      ∃ o, read_package workout_type data = ReadResult.ok o) := by
  refine ⟨fun hlen => ?_, fun hlen => ?_⟩ <;>
    fin_cases hwt <;>
      rcases data with _ | ⟨a, _ | ⟨b, _ | ⟨c, _ | ⟨d, _ | ⟨e, _ |
        ⟨f, rest⟩⟩⟩⟩⟩⟩ <;>
        simp_all [read_package, expectedArity]

/-- C8 witness: RUN with only two values raises `TypeError`. -/
theorem read_package_arity_check_witness :
    read_package "RUN" ([1, 2] : List ℚ) = ReadResult.typeError :=
  (read_package_arity_check "RUN" [1, 2] (by simp)).1 (by simp
    [expectedArity])

/-- C10: for Running and Walking records with positive duration the
reported mean speed times the duration equals the reported distance
exactly; for the Swimming example record the identity fails, since the
mean speed comes from the pool data while the distance comes from
`action * 1.38 / 1000`. -/
theorem speed_duration_distance :
    (∀ t : Training ℚ, 0 < t.duration → ∀ sp,
      t.get_mean_speed = some sp → sp * t.duration = t.get_distance) ∧
    (∀ s : SportsWalking ℚ, 0 < s.duration → ∀ sp,
      Training.get_mean_speed s.toTraining = some sp →
        sp * s.duration = Training.get_distance s.toTraining) ∧
    Swimming.get_mean_speed ⟨⟨720, 1, 80⟩, 25, 40⟩ = some 1 ∧
    (1 : ℚ) * 1 ≠ Swimming.get_distance ⟨⟨720, 1, 80⟩, 25, 40⟩ := by
  have key : ∀ t : Training ℚ, 0 < t.duration → ∀ sp,
      t.get_mean_speed = some sp → sp * t.duration = t.get_distance := by
    intro t hd sp hsp
    rw [Training.get_mean_speed, pydiv_of_ne _ _ hd.ne'] at hsp
    rw [← Option.some.inj hsp]
    exact div_mul_cancel₀ _ hd.ne'
  refine ⟨key, fun s hd sp hsp => key s.toTraining hd sp hsp, ?_, ?_⟩
  · norm_num [Swimming.get_mean_speed, pydiv, Training.M_IN_KM]
  · norm_num [Swimming.get_distance, Swimming.LEN_STEP, Training.M_IN_KM]

/-- C10 witness: the identity at RUN [15000, 1, 75]. -/
theorem speed_duration_distance_witness :
    (9.75 : ℚ) * 1 = Training.get_distance ⟨15000, 1, 75⟩ :=
  speed_duration_distance.1 ⟨15000, 1, 75⟩ (by norm_num) 9.75 (by
    norm_num [Training.get_mean_speed, Training.get_distance, pydiv,
      Training.LEN_STEP, Training.M_IN_KM])

theorem digitChar_isDigit_of_lt (n : ℕ) (h : n < 10) :
    (Nat.digitChar n).isDigit = true := by
  interval_cases n <;> rfl

theorem digit3_length (k : ℕ) : (digit3 k).length = 3 := rfl

theorem digit3_all_digits (k : ℕ) :
    (digit3 k).data.all Char.isDigit = true := by
  show List.all [Nat.digitChar (k / 100 % 10), Nat.digitChar (k / 10 % 10),
    Nat.digitChar (k % 10)] Char.isDigit = true
  rw [List.all_eq_true]
  intro x hx
  fin_cases hx <;>
    exact digitChar_isDigit_of_lt _ (Nat.mod_lt _ (by norm_num))

theorem swm_example_info :
    show_training_info (.swm ⟨⟨720, 1, 80⟩, 25, 40⟩) =
      some ⟨"Swimming", 1, 621 / 625, 1, 336⟩ := by
  norm_num [show_training_info, TrainingObj.get_mean_speed,
    TrainingObj.get_spent_calories, TrainingObj.get_distance,
    TrainingObj.className, TrainingObj.duration, Swimming.get_mean_speed,
    Swimming.get_spent_calories, Swimming.get_distance, pydiv,
    Training.M_IN_KM, Swimming.LEN_STEP, Option.some_bind,
    Option.map_some', InfoMessage.mk.injEq,
    Swimming.CALORIES_MEAN_SPEED_MULTIPLIER,
    Swimming.CALORIES_MEAN_SPEED_SHIFT]

theorem fmt3_one : fmt3 1 = "1.000" := by
  norm_num [fmt3, roundHalfEven, digit3] <;> rfl

theorem fmt3_swim_distance : fmt3 (621 / 625) = "0.994" := by
  norm_num [fmt3, roundHalfEven, digit3] <;> rfl

theorem fmt3_swim_calories : fmt3 336 = "336.000" := by
  norm_num [fmt3, roundHalfEven, digit3] <;> rfl

/-- C9: every report line is exactly the template `Тип тренировки: ...;
Длительность: ...; Дистанция: ...; Ср. скорость: ...; Потрачено ккал:
....` with the four numeric fields rendered fixed-point with exactly
three decimal digits, and the kind is the per-kind class name; the
Swimming example renders to the exact expected line. -/
theorem report_line_format :
    (∀ m : InfoMessage, m.get_message =
      "Тип тренировки: " ++ m.training_type ++ "; Длительность: "
        ++ fmt3 m.duration ++ " ч.; Дистанция: " ++ fmt3 m.distance
        ++ " км; Ср. скорость: " ++ fmt3 m.speed
        ++ " км/ч; Потрачено ккал: " ++ fmt3 m.calories ++ ".") ∧
    (∀ q : ℚ, ∃ ip fp, fmt3 q = ip ++ "." ++ fp ∧ fp.length = 3 ∧
      fp.data.all Char.isDigit = true) ∧
    (∀ (o : TrainingObj ℚ) (m : InfoMessage),
      show_training_info o = some m → m.training_type = o.className) ∧
    (show_training_info (.swm ⟨⟨720, 1, 80⟩, 25, 40⟩)).map
        InfoMessage.get_message =
      some ("Тип тренировки: Swimming; Длительность: 1.000 ч.; "
        ++ "Дистанция: 0.994 км; Ср. скорость: 1.000 км/ч; "
        ++ "Потрачено ккал: 336.000.") := by
  refine ⟨fun m => rfl, fun q => ⟨_, _, rfl, digit3_length _,
    digit3_all_digits _⟩, fun o m h => ?_, ?_⟩
  · rw [show_training_info] at h
    cases hsp : TrainingObj.get_mean_speed o with
    | none => rw [hsp] at h; simp at h
    | some sp =>
      cases hc : TrainingObj.get_spent_calories o with
      | none => rw [hsp, hc] at h; simp at h
      | some cal =>
        rw [hsp, hc] at h
        simp only [Option.some_bind, Option.map_some',
          Option.some.injEq] at h
        subst h
        rfl
  · rw [swm_example_info]
    simp only [Option.map_some', InfoMessage.get_message, fmt3_one,
      fmt3_swim_distance, fmt3_swim_calories]
    rfl

/-- C9 witness: the class-name conjunct applied at the Swimming example
record. -/
theorem report_line_format_witness :
    InfoMessage.training_type ⟨"Swimming", 1, 621 / 625, 1, 336⟩ =
      TrainingObj.className (.swm ⟨⟨720, 1, 80⟩, 25, 40⟩) :=
  report_line_format.2.2.1 (.swm ⟨⟨720, 1, 80⟩, 25, 40⟩)
    ⟨"Swimming", 1, 621 / 625, 1, 336⟩ swm_example_info
